import Mathlib

set_option maxRecDepth 8000

/-! Verification development for the ManiSkill2 base environment.

This file shallowly embeds the episode lifecycle, the deterministic seeding
protocol, the observation pipeline, the simulation-state codec
(`mani_skill2/envs/sapien_env.py`) and the sensor configuration layer
(`mani_skill2/sensors/camera.py`), and proves the specified properties
about the embedding. -/

/- ------------------------------------------------------------------ -/
/- Random number generator model                                       -/
/- ------------------------------------------------------------------ -/

/-- Model of `numpy.random.RandomState`: the seed it was created from
together with the number of values drawn so far.  The value stream itself
is abstracted by a function `draw : seed -> position -> value` that is
passed to every operation that samples. -/
structure RngState where
  seed : Nat
  pos : Nat
deriving DecidableEq

/-- `np.random.RandomState(s)`. -/
def mkRandomState (s : Nat) : RngState := ⟨s, 0⟩

/-- `rng.randint(2**32)`: the next value of the stream (reduced modulo
`2^32` to reflect the requested bound), advancing the generator. -/
def randint (draw : Nat → Nat → Nat) (r : RngState) : Nat × RngState :=
  (draw r.seed r.pos % 2 ^ 32, ⟨r.seed, r.pos + 1⟩)

/- ------------------------------------------------------------------ -/
/- Scene model: rigid bodies and articulations                         -/
/- ------------------------------------------------------------------ -/

/-- The 13 kinematic scalars of a rigid body: position (3), orientation
quaternion (4), linear velocity (3), angular velocity (3).  Rationals
stand in for the engine's floating-point scalars; no claim below depends
on rounding. -/
structure RigidState where
  px : Rat
  py : Rat
  pz : Rat
  qw : Rat
  qx : Rat
  qy : Rat
  qz : Rat
  vx : Rat
  vy : Rat
  vz : Rat
  wx : Rat
  wy : Rat
  wz : Rat
deriving DecidableEq

/-- The 13-wide flat encoding of a rigid body state. -/
def RigidState.toVec (r : RigidState) : List Rat :=
  [r.px, r.py, r.pz, r.qw, r.qx, r.qy, r.qz, r.vx, r.vy, r.vz, r.wx, r.wy, r.wz]

/-- Rebuild a rigid body state from the first 13 scalars of a vector
(only ever used under a length guard). -/
def RigidState.ofVec (v : List Rat) : RigidState :=
  ⟨v.getD 0 0, v.getD 1 0, v.getD 2 0, v.getD 3 0, v.getD 4 0, v.getD 5 0,
   v.getD 6 0, v.getD 7 0, v.getD 8 0, v.getD 9 0, v.getD 10 0, v.getD 11 0,
   v.getD 12 0⟩

/-- A rigid actor of the scene: its name, its sapien actor type
(`"static"`, `"dynamic"`, ...) and its kinematic state. -/
structure Actor where
  name : String
  atype : String
  body : RigidState
deriving DecidableEq

/-- An articulation: name, root-link kinematic state, joint positions,
joint velocities, and its list of links (used for camera mounting). -/
structure Articulation where
  name : String
  root : RigidState
  qpos : List Rat
  qvel : List Rat
  links : List Actor
deriving DecidableEq

/-- `articulation.dof`: sapien reports one degree of freedom per joint
position. -/
def Articulation.dof (a : Articulation) : Nat := a.qpos.length

/-- The engine-owned scene: its rigid actors and its articulations, in
engine enumeration order. -/
structure Scene where
  actors : List Actor
  articulations : List Articulation
deriving DecidableEq

/- ------------------------------------------------------------------ -/
/- State (de)serialization helpers                                     -/
/- ------------------------------------------------------------------ -/

/-- Modelled from the spec: `get_actor_state`
(`mani_skill2.utils.sapien_utils`, not under `src/`) flattens an actor
into the 13-wide segment position, orientation, linear velocity, angular
velocity. -/
def get_actor_state (a : Actor) : List Rat := a.body.toVec

/-- Modelled from the spec: `get_articulation_state`
(`mani_skill2.utils.sapien_utils`, not under `src/`) flattens an
articulation into a 13-wide root segment followed by the joint positions
and the joint velocities. -/
def get_articulation_state (a : Articulation) : List Rat :=
  a.root.toVec ++ a.qpos ++ a.qvel

/-- Modelled from the spec: `set_actor_state`
(`mani_skill2.utils.sapien_utils`, not under `src/`) consumes a segment of
exactly 13 values or fails with a shape-mismatch error. -/
def set_actor_state (a : Actor) (v : List Rat) : Except String Actor :=
  if v.length = 13 then Except.ok { a with body := RigidState.ofVec v }
  else Except.error "shape mismatch: actor state must have 13 values"

/-- Modelled from the spec: `set_articulation_state`
(`mani_skill2.utils.sapien_utils`, not under `src/`) consumes a segment of
exactly 13 + 2 * dof values (root segment, joint positions, joint
velocities) or fails with a shape-mismatch error. -/
def set_articulation_state (art : Articulation) (v : List Rat) :
    Except String Articulation :=
  if v.length = 13 + 2 * art.dof then
    Except.ok { art with
      root := RigidState.ofVec (v.take 13)
      qpos := (v.drop 13).take art.dof
      qvel := (v.drop 13).drop art.dof }
  else Except.error "shape mismatch: articulation state length"

/-- Whether a fallible computation succeeded (no Python exception was
raised). -/
def exceptIsOk {ε α : Type} : Except ε α → Bool
  | Except.ok _ => true
  | Except.error _ => false

/-- Modelled from the spec and from its use in `src`: `get_entity_by_name`
(`mani_skill2.utils.sapien_utils`, not under `src/`) returns the entity
whose name matches the query and `None` when there is no match (the
caller `Camera.get_mount_actor` compares its result against `None`). -/
def get_entity_by_name {α : Type} (entities : List α) (nameOf : α → String)
    (uuid : String) : Option α :=
  entities.find? (fun e => nameOf e == uuid)

/- ------------------------------------------------------------------ -/
/- Environment state and task hooks                                    -/
/- ------------------------------------------------------------------ -/

/-- The task extension hooks of `BaseEnv` (`_load_*`, `_initialize_*`,
observation hooks).  They are no-ops in the base class and are supplied by
concrete tasks; the spec requires episode initialization to be driven
exclusively by the episode RNG. -/
structure Hooks where
  load : RngState → Scene × RngState
  initActors : Scene → RngState → Scene × RngState
  initArts : Scene → RngState → Scene × RngState
  initAgent : Scene → RngState → Scene × RngState
  initTask : Scene → RngState → Scene × RngState
  obsState : Scene → List Rat

/-- The mutable state of a `BaseEnv`: seeding state, elapsed steps, the
live scene, and the actor/articulation lists cached by `reconfigure`
(`self._actors`, `self._articulations`). -/
structure EnvState where
  mainSeed : Nat
  mainRng : RngState
  episodeSeed : Nat
  episodeRng : RngState
  elapsedSteps : Nat
  scene : Scene
  actorsSnap : List Actor
  artsSnap : List Articulation
deriving DecidableEq

/-- `BaseEnv.seed`: records the main seed (an explicit one, or fresh
system entropy when none is given) and reinitializes the main RNG. -/
def seedEnv (entropy : Nat) (st : EnvState) (seed : Option Nat) : EnvState :=
  match seed with
  | some s => { st with mainSeed := s, mainRng := mkRandomState s }
  | none => { st with mainSeed := entropy, mainRng := mkRandomState entropy }

/-- `BaseEnv.set_episode_rng`: with an explicit seed, reseed the episode
RNG from it; with `None`, draw the episode seed from the main RNG. -/
def set_episode_rng (draw : Nat → Nat → Nat) (st : EnvState)
    (seed : Option Nat) : EnvState :=
  match seed with
  | none =>
    let d := randint draw st.mainRng
    { st with mainRng := d.2, episodeSeed := d.1, episodeRng := mkRandomState d.1 }
  | some s => { st with episodeSeed := s, episodeRng := mkRandomState s }

/-- Zero the velocity half of a rigid body state. -/
def zeroVel (r : RigidState) : RigidState :=
  { r with vx := 0, vy := 0, vz := 0, wx := 0, wy := 0, wz := 0 }

/-- `BaseEnv._clear_sim_state`: zero the velocities of every non-static
actor and of every articulation (joint and root velocities) in the live
scene, preserving poses. -/
def clear_sim_state (st : EnvState) : EnvState :=
  { st with scene :=
    { actors := st.scene.actors.map (fun a =>
        if a.atype = "static" then a else { a with body := zeroVel a.body })
      articulations := st.scene.articulations.map (fun art =>
        { art with qvel := List.replicate art.dof 0, root := zeroVel art.root }) } }

/-- `BaseEnv.reconfigure`: rebuild the scene through the load hooks
(`_setup_scene`, `_load_agent`, `_load_actors`, `_load_articulations`,
cameras, lighting) and cache the actor and articulation lists
(`self._actors = self.get_actors()`, `self._articulations =
self.get_articulations()`). -/
def reconfigureEnv (h : Hooks) (st : EnvState) : EnvState :=
  let r := h.load st.episodeRng
  { st with
    scene := r.1
    episodeRng := r.2
    actorsSnap := r.1.actors
    artsSnap := r.1.articulations }

/-- The hook chain run by `BaseEnv.initialize_episode`: actors,
articulations, agent, task, in order, threading the episode RNG. -/
def runInitHooks (h : Hooks) (sc : Scene) (r : RngState) : Scene × RngState :=
  let s1 := h.initActors sc r
  let s2 := h.initArts s1.1 s1.2
  let s3 := h.initAgent s2.1 s2.2
  h.initTask s3.1 s3.2

/-- `BaseEnv.initialize_episode`: run the four initialization hooks on
the live scene with the episode RNG. -/
def initEpisode (h : Hooks) (st : EnvState) : EnvState :=
  let s4 := runInitHooks h st.scene st.episodeRng
  { st with scene := s4.1, episodeRng := s4.2 }

/-- The first half of `BaseEnv.reset` (lines 431-442): set the episode
RNG from the argument, zero the elapsed-step counter, reconfigure or
clear the simulation state, then set the episode RNG a second time from
`self._episode_seed`.  This is the environment state at the moment
`initialize_episode` begins. -/
def resetPreInit (draw : Nat → Nat → Nat) (h : Hooks) (st : EnvState)
    (seed : Option Nat) (reconfig : Bool) : EnvState :=
  let st1 := set_episode_rng draw st seed
  let st1 := { st1 with elapsedSteps := 0 }
  let st2 := if reconfig then reconfigureEnv h st1 else clear_sim_state st1
  set_episode_rng draw st2 (some st2.episodeSeed)

/-- `BaseEnv.get_obs` restricted to `obs_mode = "state"`: the flattened
state observation computed from the live scene. -/
def get_obs_state (h : Hooks) (st : EnvState) : List Rat := h.obsState st.scene

/-- `BaseEnv.reset`: the pre-initialization phase, then
`initialize_episode`, then the first observation. -/
def resetEnv (draw : Nat → Nat → Nat) (h : Hooks) (st : EnvState)
    (seed : Option Nat) (reconfig : Bool) : EnvState × List Rat :=
  let st3 := initEpisode h (resetPreInit draw h st seed reconfig)
  (st3, get_obs_state h st3)

/-- The seeding portion of `BaseEnv.__init__` (lines 145-148):
`self.seed(2022)` followed by `self.reset(reconfigure=True)` without an
explicit episode seed. -/
def constructEnv (draw : Nat → Nat → Nat) (h : Hooks) (st0 : EnvState) :
    EnvState × List Rat :=
  resetEnv draw h (seedEnv 0 st0 (some 2022)) none true

/- ------------------------------------------------------------------ -/
/- Simulation state codec (`get_sim_state` / `set_sim_state`)          -/
/- ------------------------------------------------------------------ -/

/-- `BaseEnv.get_sim_state`: append the state of every cached actor, then
of every cached articulation, and `np.hstack` the segments.  The cached
lists (`self._actors`, `self._articulations`), not the live scene, are
visited. -/
def get_sim_state (st : EnvState) : List Rat :=
  (st.actorsSnap.map get_actor_state ++ st.artsSnap.map get_articulation_state).flatten

/-- The total layout length implied by a cached snapshot:
`13 * |actors| + sum (13 + 2 * dof)`. -/
def simStateLen (st : EnvState) : Nat :=
  13 * st.actorsSnap.length + (st.artsSnap.map (fun a => 13 + 2 * a.dof)).sum

/-- The actor half of `BaseEnv.set_sim_state`: consume 13-value segments
from the front of the vector (numpy slicing truncates silently; the
length check lives in `set_actor_state`), returning the updated actors
and the remaining values. -/
def setActorsFrom : List Actor → List Rat → Except String (List Actor × List Rat)
  | [], v => Except.ok ([], v)
  | a :: tl, v =>
    match set_actor_state a (v.take 13) with
    | Except.error e => Except.error e
    | Except.ok a' =>
      match setActorsFrom tl (v.drop 13) with
      | Except.error e => Except.error e
      | Except.ok r => Except.ok (a' :: r.1, r.2)

/-- The articulation half of `BaseEnv.set_sim_state`: consume
`13 + 2 * dof`-value segments from the front of the vector. -/
def setArtsFrom : List Articulation → List Rat →
    Except String (List Articulation × List Rat)
  | [], v => Except.ok ([], v)
  | a :: tl, v =>
    match set_articulation_state a (v.take (13 + 2 * a.dof)) with
    | Except.error e => Except.error e
    | Except.ok a' =>
      match setArtsFrom tl (v.drop (13 + 2 * a.dof)) with
      | Except.error e => Except.error e
      | Except.ok r => Except.ok (a' :: r.1, r.2)

/-- Both halves of `BaseEnv.set_sim_state`, also returning the values
left unconsumed at the end of the loop (the source never examines them).
-/
def setBodiesFrom (actors : List Actor) (arts : List Articulation)
    (v : List Rat) :
    Except String ((List Actor × List Articulation) × List Rat) :=
  match setActorsFrom actors v with
  | Except.error e => Except.error e
  | Except.ok ra =>
    match setArtsFrom arts ra.2 with
    | Except.error e => Except.error e
    | Except.ok rb => Except.ok ((ra.1, rb.1), rb.2)

/-- `BaseEnv.set_sim_state`: apply the vector to the cached actor list,
then to the cached articulation list; leftover values are ignored. -/
def set_sim_state (st : EnvState) (v : List Rat) : Except String EnvState :=
  match setBodiesFrom st.actorsSnap st.artsSnap v with
  | Except.error e => Except.error e
  | Except.ok r => Except.ok { st with actorsSnap := r.1.1, artsSnap := r.1.2 }

/- ------------------------------------------------------------------ -/
/- Observation pipeline: rgbd / pointcloud / robot segmentation        -/
/- ------------------------------------------------------------------ -/

/-- The channel request flags threaded through `_get_obs_images`
(`rgb`, `depth`, `visual_seg`, `actor_seg`). -/
structure ImageOpts where
  rgb : Bool
  depth : Bool
  visualSeg : Bool
  actorSeg : Bool
deriving DecidableEq

/-- `BaseEnv._get_obs_rgbd`: force segmentation on under GT
segmentation, then force depth and both segmentations off under the
kuafu renderer, and return the images built from the resulting flags (no
error path). -/
def get_obs_rgbd (enableGtSeg enableKuafu : Bool) (opts : ImageOpts) :
    Except String ImageOpts :=
  let o1 := if enableGtSeg then { opts with visualSeg := true, actorSeg := true } else opts
  let o2 := if enableKuafu then { o1 with depth := false, visualSeg := false, actorSeg := false } else o1
  Except.ok o2

/-- `BaseEnv._get_obs_pointcloud`: force segmentation on under GT
segmentation, then raise `NotImplementedError` under the kuafu renderer
before any capture happens. -/
def get_obs_pointcloud (enableGtSeg enableKuafu : Bool) (opts : ImageOpts) :
    Except String ImageOpts :=
  let o1 := if enableGtSeg then { opts with visualSeg := true, actorSeg := true } else opts
  if enableKuafu then
    Except.error "Do not support pointcloud mode for KuafuRenderer yet."
  else Except.ok o1

/-- `BaseEnv._get_robot_seg`: `mask = np.isin(actor_seg,
robot_link_ids); return actor_seg * mask`, over a flattened id array. -/
def get_robot_seg (robotLinkIds : List Nat) (actorSeg : List Nat) : List Nat :=
  List.zipWith (fun v m => v * m) actorSeg
    (actorSeg.map (fun v => if v ∈ robotLinkIds then 1 else 0))

/- ------------------------------------------------------------------ -/
/- Simulation / control frequency                                      -/
/- ------------------------------------------------------------------ -/

/-- The frequency block of `BaseEnv.__init__` (lines 111-118). -/
structure EnvInit where
  simFreq : Nat
  controlFreq : Nat
  simStepsPerControl : Nat
  freqWarning : Bool
deriving DecidableEq

/-- The frequency block of `BaseEnv.__init__`: record a (non-fatal)
warning when `sim_freq % control_freq != 0` and floor-divide to obtain
`self._sim_steps_per_control`; a zero control frequency raises Python's
division error. -/
def initFreq (simFreq controlFreq : Nat) : Except String EnvInit :=
  if controlFreq = 0 then
    Except.error "ZeroDivisionError: integer division or modulo by zero"
  else
    Except.ok ⟨simFreq, controlFreq, simFreq / controlFreq,
      decide (simFreq % controlFreq ≠ 0)⟩

/-- The substep loop of `BaseEnv.step_action`: run the composite substep
(`agent.before_simulation_step`; `scene.step`; `_after_simulation_step`)
the given number of times. -/
def stepLoop {α : Type} : Nat → (α → α) → α → α
  | 0, _, x => x
  | n + 1, f, x => stepLoop n f (f x)

/- ------------------------------------------------------------------ -/
/- Camera configuration (`mani_skill2/sensors/camera.py`)              -/
/- ------------------------------------------------------------------ -/

/-- Python values stored in camera configuration attributes and override
dictionaries. -/
inductive PyVal where
  | pnone
  | num (q : Rat)
  | str (s : String)
  | nums (xs : List Rat)
  | strs (xs : List String)
deriving DecidableEq

/-- A value of the override dictionary: either a plain value (a global
override) or a nested per-camera table. -/
inductive CfgEntry where
  | scalar (v : PyVal)
  | table (kvs : List (String × PyVal))
deriving DecidableEq

/-- A `CameraConfig` object, modelled as its Python instance dictionary:
the ordered association list of attribute names to values. -/
structure CameraConfig where
  attrs : List (String × CfgEntry)
deriving DecidableEq

/-- Wrap an optional string the way `CameraConfig.__init__` stores it. -/
def optStrVal : Option String → PyVal
  | some s => PyVal.str s
  | none => PyVal.pnone

/-- `CameraConfig.__init__`: record the eleven attributes in order. -/
def mkCameraConfig (uuid : String) (p q : List Rat) (width height : Nat)
    (fov near far : Rat) (articulationUuid actorUuid : Option String)
    (textureNames : List String) : CameraConfig :=
  ⟨[("uuid", CfgEntry.scalar (PyVal.str uuid)),
    ("p", CfgEntry.scalar (PyVal.nums p)),
    ("q", CfgEntry.scalar (PyVal.nums q)),
    ("width", CfgEntry.scalar (PyVal.num width)),
    ("height", CfgEntry.scalar (PyVal.num height)),
    ("fov", CfgEntry.scalar (PyVal.num fov)),
    ("near", CfgEntry.scalar (PyVal.num near)),
    ("far", CfgEntry.scalar (PyVal.num far)),
    ("articulation_uuid", CfgEntry.scalar (optStrVal articulationUuid)),
    ("actor_uuid", CfgEntry.scalar (optStrVal actorUuid)),
    ("texture_names", CfgEntry.scalar (PyVal.strs textureNames))]⟩

/-- The attribute names of a configuration object. -/
def attrKeys (cfg : CameraConfig) : List String := cfg.attrs.map Prod.fst

/-- Python `hasattr` on a configuration object: the attribute name is
present in the instance dictionary. -/
def hasattrCfg (cfg : CameraConfig) (k : String) : Bool :=
  (cfg.attrs.lookup k).isSome

/-- Python `getattr` on a configuration object. -/
def getattrCfg (cfg : CameraConfig) (k : String) : Option CfgEntry :=
  cfg.attrs.lookup k

/-- Python `setattr` on a configuration object: replace the value of an
existing attribute in place, or append a new attribute. -/
def setattrCfg (cfg : CameraConfig) (k : String) (v : CfgEntry) : CameraConfig :=
  if hasattrCfg cfg k then
    ⟨cfg.attrs.map (fun kv => if kv.1 = k then (kv.1, v) else kv)⟩
  else ⟨cfg.attrs ++ [(k, v)]⟩

/-- The inner loop of the global pass of `update_camera_cfgs_from_dict`:
for each camera in order, assert the attribute exists (aborting with the
assertion message, and leaving the remaining cameras untouched) and set
it. -/
def setattrAll : List (String × CameraConfig) → String → CfgEntry →
    List (String × CameraConfig) × Option String
  | [], _, _ => ([], none)
  | (n, cfg) :: rest, k, v =>
    if hasattrCfg cfg k then
      let r := setattrAll rest k v
      ((n, setattrCfg cfg k v) :: r.1, r.2)
    else
      ((n, cfg) :: rest, some (k ++ " is not a valid attribute of CameraConfig"))

/-- The first (global) pass of `update_camera_cfgs_from_dict`: keys that
name a camera are skipped; every other key is applied to every camera,
asserting validity camera by camera.  An assertion failure aborts the
whole merge but the mutations already applied persist. -/
def applyGlobal : List (String × CameraConfig) → List (String × CfgEntry) →
    List (String × CameraConfig) × Option String
  | cfgs, [] => (cfgs, none)
  | cfgs, (k, v) :: rest =>
    match cfgs.lookup k with
    | some _ => applyGlobal cfgs rest
    | none =>
      match setattrAll cfgs k v with
      | (cfgs', none) => applyGlobal cfgs' rest
      | (cfgs', some e) => (cfgs', some e)

/-- The second (per-camera) pass of `update_camera_cfgs_from_dict`: keys
that name a camera must carry a table; every key of the table is asserted
valid for that camera before the table is applied via
`cfg.__dict__.update`. -/
def applyPerCamera : List (String × CameraConfig) → List (String × CfgEntry) →
    List (String × CameraConfig) × Option String
  | cfgs, [] => (cfgs, none)
  | cfgs, (n, v) :: rest =>
    match cfgs.lookup n with
    | none => applyPerCamera cfgs rest
    | some cfg =>
      match v with
      | CfgEntry.scalar _ =>
        (cfgs, some "TypeError: camera-level configuration must be a dict")
      | CfgEntry.table kvs =>
        if kvs.all (fun kv => hasattrCfg cfg kv.1) then
          applyPerCamera
            (cfgs.map (fun p =>
              if p.1 = n then
                (p.1, kvs.foldl (fun c kv => setattrCfg c kv.1 (CfgEntry.scalar kv.2)) cfg)
              else p))
            rest
        else (cfgs, some " is not a valid attribute of CameraConfig")

/-- `update_camera_cfgs_from_dict`: global pass, then per-camera pass.
The second component is the pending assertion/type error, if any; the
first component is the configuration set as mutated so far (Python
mutates the objects in place, so these mutations survive the raised
error). -/
def update_camera_cfgs_from_dict (cfgs : List (String × CameraConfig))
    (cfg_dict : List (String × CfgEntry)) :
    List (String × CameraConfig) × Option String :=
  match applyGlobal cfgs cfg_dict with
  | (cfgs1, none) => applyPerCamera cfgs1 cfg_dict
  | (cfgs1, some e) => (cfgs1, some e)

/- ------------------------------------------------------------------ -/
/- Camera runtime (`Camera.__init__` / `Camera.get_mount_actor`)       -/
/- ------------------------------------------------------------------ -/

/-- Read a string-or-None attribute of a camera configuration. -/
def strAttr (cfg : CameraConfig) (k : String) : Option String :=
  match getattrCfg cfg k with
  | some (CfgEntry.scalar (PyVal.str s)) => some s
  | _ => none

/-- Read the texture-name list attribute of a camera configuration. -/
def strsAttr (cfg : CameraConfig) (k : String) : List String :=
  match getattrCfg cfg k with
  | some (CfgEntry.scalar (PyVal.strs xs)) => xs
  | _ => []

/-- `Camera.get_mount_actor`: with an actor uuid and no articulation
uuid, look the actor up among the scene actors (returning `None` without
error when absent); with both uuids, look the articulation up (a missing
articulation crashes on the `None.get_links()` attribute access) and then
the link, raising `RuntimeError` when the link is absent; with no actor
uuid, no mount. -/
def get_mount_actor (scene : Scene) (articulationUuid actorUuid : Option String) :
    Except String (Option Actor) :=
  match actorUuid with
  | none => Except.ok none
  | some au =>
    match articulationUuid with
    | none => Except.ok (get_entity_by_name scene.actors Actor.name au)
    | some artu =>
      match get_entity_by_name scene.articulations Articulation.name artu with
      | none => Except.error "AttributeError: NoneType object has no attribute get_links"
      | some art =>
        match get_entity_by_name art.links Actor.name au with
        | none => Except.error ("Mount actor (" ++ au ++ ") is not found")
        | some a => Except.ok (some a)

/-- The observable outcome of `Camera.__init__`: the resolved mount
(`None` means a free, world-fixed camera was added) and the effective
texture names after renderer-capability filtering. -/
structure CameraRuntime where
  mount : Option Actor
  textureNames : List String
deriving DecidableEq

/-- `Camera.__init__`: resolve the mount, add a free camera when the
mount is `None` and a mounted camera otherwise, then keep only `Color`
textures under the kuafu renderer. -/
def mkCamera (cfg : CameraConfig) (scene : Scene) (rendererType : String) :
    Except String CameraRuntime :=
  match get_mount_actor scene (strAttr cfg "articulation_uuid") (strAttr cfg "actor_uuid") with
  | Except.error e => Except.error e
  | Except.ok mount =>
    Except.ok ⟨mount,
      if rendererType = "kuafu" then
        (strsAttr cfg "texture_names").filter (fun x => x ∈ ["Color"])
      else strsAttr cfg "texture_names"⟩

/- ------------------------------------------------------------------ -/
/- Concrete instances used by witnesses and counterexamples           -/
/- ------------------------------------------------------------------ -/

/-- A concrete draw function standing in for the numpy value stream. -/
def cDraw : Nat → Nat → Nat := fun s p => s + 7 * p

/-- A concrete rigid body state. -/
def cRigid : RigidState := ⟨0, 0, 0, 1, 0, 0, 0, 0, 0, 0, 0, 0, 0⟩

/-- A concrete dynamic actor. -/
def cActor : Actor := ⟨"cube", "dynamic", cRigid⟩

/-- A concrete articulation with one degree of freedom. -/
def cArt : Articulation := ⟨"door", cRigid, [0], [0], [cActor]⟩

/-- A concrete scene. -/
def cScene : Scene := ⟨[cActor], [cArt]⟩

/-- Concrete task hooks whose episode initialization is driven only by
the episode RNG (as the spec requires of every task). -/
def cHooks : Hooks :=
  ⟨fun r => (cScene, r),
   fun _ r => (cScene, r),
   fun sc r => (sc, r),
   fun sc r => (sc, r),
   fun sc r => (sc, r),
   fun sc => [(sc.actors.length : Rat)]⟩

/-- A concrete environment state. -/
def cSt : EnvState :=
  ⟨2022, mkRandomState 2022, 0, mkRandomState 0, 0, cScene, [cActor], [cArt]⟩

/-- A concrete environment state whose snapshot holds one actor and no
articulation, so its state layout has exactly 13 values. -/
def cSt4 : EnvState :=
  ⟨2022, mkRandomState 2022, 0, mkRandomState 0, 0, cScene, [cActor], []⟩

/- ------------------------------------------------------------------ -/
/- C1: explicit reset seed reproducibility                             -/
/- ------------------------------------------------------------------ -/

/-- C1: for every seed `s`, `reset(seed=s)` leaves the episode RNG in the
freshly reseeded state `RandomState(s)` at the moment episode
initialization begins, whether or not a reconfigure happens during (or at
any point before) the call; consequently two such resets return the same
first `"state"`-mode observation whenever episode initialization is
driven exclusively by the episode RNG, as the spec requires of task
hooks. -/
theorem reset_explicit_seed_reproducible (draw : Nat → Nat → Nat) (h : Hooks)
    (st st' : EnvState) (s : Nat) (b b' : Bool)
    (hInit : ∀ sc sc' r, runInitHooks h sc r = runInitHooks h sc' r) :
    (resetPreInit draw h st (some s) b).episodeRng = mkRandomState s ∧
    (resetPreInit draw h st' (some s) b').episodeRng = mkRandomState s ∧
    (resetEnv draw h st (some s) b).2 = (resetEnv draw h st' (some s) b').2 := by
  have key : ∀ (t : EnvState) (c : Bool),
      (resetPreInit draw h t (some s) c).episodeRng = mkRandomState s := by
    intro t c
    cases c <;>
      simp [resetPreInit, set_episode_rng, reconfigureEnv, clear_sim_state]
  refine ⟨key st b, key st' b', ?_⟩
  show (get_obs_state h (initEpisode h (resetPreInit draw h st (some s) b))) =
    (get_obs_state h (initEpisode h (resetPreInit draw h st' (some s) b')))
  unfold get_obs_state initEpisode
  rw [key st b, key st' b']
  exact congrArg (fun p => h.obsState p.1)
    (hInit (resetPreInit draw h st (some s) b).scene
      (resetPreInit draw h st' (some s) b').scene (mkRandomState s))

/-- Witness for C1 at seed 42, one reset with reconfigure and one
without, on concrete hooks. -/
theorem reset_explicit_seed_reproducible_witness :
    (resetPreInit cDraw cHooks cSt (some 42) true).episodeRng = mkRandomState 42 ∧
    (resetPreInit cDraw cHooks cSt (some 42) false).episodeRng = mkRandomState 42 ∧
    (resetEnv cDraw cHooks cSt (some 42) true).2 =
      (resetEnv cDraw cHooks cSt (some 42) false).2 :=
  reset_explicit_seed_reproducible cDraw cHooks cSt cSt 42 true false
    (fun _ _ _ => rfl)

/- ------------------------------------------------------------------ -/
/- C2: kuafu capability asymmetry                                      -/
/- ------------------------------------------------------------------ -/

/-- C2: under the kuafu renderer, `_get_obs_rgbd` succeeds and silently
drops depth and both segmentation channels (only the rgb request
survives), while `_get_obs_pointcloud` raises `NotImplementedError`
instead of degrading — the two modes take disjoint paths. -/
theorem kuafu_rgbd_degrades_pointcloud_fails (gt : Bool) (opts : ImageOpts) :
    get_obs_rgbd gt true opts =
      Except.ok ⟨opts.rgb, false, false, false⟩ ∧
    get_obs_pointcloud gt true opts =
      Except.error "Do not support pointcloud mode for KuafuRenderer yet." := by
  cases gt <;> exact ⟨rfl, rfl⟩

/- ------------------------------------------------------------------ -/
/- C5: substeps per control step                                       -/
/- ------------------------------------------------------------------ -/

/-- The substep loop runs its body exactly the requested number of
times. -/
theorem stepLoop_eq_iterate {α : Type} (n : Nat) (f : α → α) (x : α) :
    stepLoop n f x = f^[n] x := by
  induction n generalizing x with
  | zero => rfl
  | succ m ih =>
    rw [stepLoop, ih, Function.iterate_succ_apply]

/-- C5: construction computes `sim_freq // control_freq` substeps per
control step, records a non-fatal warning exactly when the division is
uneven, and the substep loop performs exactly that many physics steps;
500/20 gives 25 and 100/20 gives 5. -/
theorem substeps_per_control (simF ctrlF : Nat) (h : 0 < ctrlF) :
    initFreq simF ctrlF =
      Except.ok ⟨simF, ctrlF, simF / ctrlF, decide (simF % ctrlF ≠ 0)⟩ ∧
    (∀ (f : Nat → Nat) (x : Nat), stepLoop (simF / ctrlF) f x = f^[simF / ctrlF] x) ∧
    initFreq 500 20 = Except.ok ⟨500, 20, 25, false⟩ ∧
    initFreq 100 20 = Except.ok ⟨100, 20, 5, false⟩ := by
  have hne : ¬ ctrlF = 0 := Nat.pos_iff_ne_zero.mp h
  refine ⟨?_, fun f x => stepLoop_eq_iterate _ f x, rfl, rfl⟩
  rw [initFreq, if_neg hne]

/-- Witness for C5 at the uneven pair 100/30 (3 substeps and a recorded
warning). -/
theorem substeps_per_control_witness :
    initFreq 100 30 =
      Except.ok ⟨100, 30, 100 / 30, decide ((100 : Nat) % 30 ≠ 0)⟩ ∧
    (∀ (f : Nat → Nat) (x : Nat), stepLoop (100 / 30) f x = f^[100 / 30] x) ∧
    initFreq 500 20 = Except.ok ⟨500, 20, 25, false⟩ ∧
    initFreq 100 20 = Except.ok ⟨100, 20, 5, false⟩ :=
  substeps_per_control 100 30 (by decide)

/- ------------------------------------------------------------------ -/
/- C9: robot segmentation mask                                         -/
/- ------------------------------------------------------------------ -/

/-- C9 counterexample: when the agent's id set contains 0, a pixel whose
raw id is 0 belongs to the set, yet the derived mask is 0 there — so the
mask is not "nonzero exactly at pixels whose raw id belongs to the
agent's id set" for every id set. -/
theorem robot_seg_zero_id_counterexample :
    (0 : Nat) ∈ [0] ∧ get_robot_seg [0] [0] = [0] := by decide

/-- C9 (amended): the derived mask has the same shape as the input, it
keeps the raw id at pixels whose raw id is in the agent's kinematic id
set and is 0 elsewhere, and it is nonzero exactly where the raw id is a
nonzero member of the set; on the spec's instance (ids {0,1,2,5}, agent
ids {1,2}) the mask is [0,1,2,0]. -/
theorem robot_seg_pointwise (ids seg : List Nat) :
    List.Forall₂ (fun vin vout =>
        vout = (if vin ∈ ids then vin else 0) ∧
        (vout ≠ 0 ↔ vin ∈ ids ∧ vin ≠ 0))
      seg (get_robot_seg ids seg) ∧
    get_robot_seg [1, 2] [0, 1, 2, 5] = [0, 1, 2, 0] := by
  constructor
  · induction seg with
    | nil => simp [get_robot_seg]
    | cons a tl ih =>
      refine List.Forall₂.cons ?_ ih
      by_cases hmem : a ∈ ids <;> simp [hmem]
  · decide

/- ------------------------------------------------------------------ -/
/- C10: default construction seed                                      -/
/- ------------------------------------------------------------------ -/

/-- C10: without any caller-supplied seed, `__init__` seeds the main RNG
with the constant 2022 before the first reset, so after construction the
main seed is 2022, the main RNG has advanced exactly one draw past
`RandomState(2022)`, and the first episode seed is the first value of the
main stream — identical for any two environments constructed with
identical arguments, since construction is a pure function of those
arguments. -/
theorem construct_seeds_main_rng_2022 (draw : Nat → Nat → Nat) (h : Hooks)
    (st0 : EnvState) :
    (constructEnv draw h st0).1.mainSeed = 2022 ∧
    (constructEnv draw h st0).1.mainRng = ⟨2022, 1⟩ ∧
    (constructEnv draw h st0).1.episodeSeed = draw 2022 0 % 2 ^ 32 := by
  exact ⟨rfl, rfl, rfl⟩

/- ------------------------------------------------------------------ -/
/- C3: encoded state layout                                            -/
/- ------------------------------------------------------------------ -/

/-- Each articulation segment is 13 + 2 * dof wide when its joint arrays
are well formed. -/
theorem length_get_articulation_state (a : Articulation)
    (h : a.qvel.length = a.qpos.length) :
    (get_articulation_state a).length = 13 + 2 * a.dof := by
  simp [get_articulation_state, RigidState.toVec, Articulation.dof, h]
  omega

/-- The flattened actor segments have total length 13 per actor. -/
theorem flatten_actor_states (l : List Actor) :
    ((l.map get_actor_state).flatten).length = 13 * l.length := by
  induction l with
  | nil => rfl
  | cons a tl ih =>
    simp [get_actor_state, RigidState.toVec, ih]
    omega

/-- The flattened articulation segments have total length summing
13 + 2 * dof per articulation. -/
theorem flatten_art_states (l : List Articulation)
    (h : ∀ a ∈ l, a.qvel.length = a.qpos.length) :
    ((l.map get_articulation_state).flatten).length =
      (l.map (fun a => 13 + 2 * a.dof)).sum := by
  induction l with
  | nil => rfl
  | cons a tl ih =>
    have ha := length_get_articulation_state a (h a (by simp))
    have htl := ih (fun x hx => h x (by simp [hx]))
    simp [ha, htl]

/-- C3: the encoded state has length `13 * |actors| + sum (13 + 2 * dof)`
over the snapshot cached at the last reconfigure, the encoding is a
function of the cached actor list followed by the cached articulation
list alone (two states with the same snapshot encode identically whatever
their live scenes hold), and `reconfigure` caches exactly the lists of
the scene it just built. -/
theorem sim_state_layout (h : Hooks) (st : EnvState)
    (hwf : ∀ a ∈ st.artsSnap, a.qvel.length = a.qpos.length) :
    (get_sim_state st).length = simStateLen st ∧
    (∀ st' : EnvState, st'.actorsSnap = st.actorsSnap →
      st'.artsSnap = st.artsSnap → get_sim_state st' = get_sim_state st) ∧
    (reconfigureEnv h st).actorsSnap = (h.load st.episodeRng).1.actors ∧
    (reconfigureEnv h st).artsSnap = (h.load st.episodeRng).1.articulations := by
  refine ⟨?_, ?_, rfl, rfl⟩
  · unfold get_sim_state simStateLen
    rw [List.flatten_append, List.length_append, flatten_actor_states,
      flatten_art_states st.artsSnap hwf]
  · intro st' h1 h2
    unfold get_sim_state
    rw [h1, h2]

/-- Witness for C3 on a concrete snapshot with one actor and one
one-degree-of-freedom articulation. -/
theorem sim_state_layout_witness :
    (∀ a ∈ cSt.artsSnap, a.qvel.length = a.qpos.length) ∧
    ((get_sim_state cSt).length = simStateLen cSt ∧
     (∀ st' : EnvState, st'.actorsSnap = cSt.actorsSnap →
       st'.artsSnap = cSt.artsSnap → get_sim_state st' = get_sim_state cSt) ∧
     (reconfigureEnv cHooks cSt).actorsSnap = (cHooks.load cSt.episodeRng).1.actors ∧
     (reconfigureEnv cHooks cSt).artsSnap = (cHooks.load cSt.episodeRng).1.articulations) :=
  ⟨by decide, sim_state_layout cHooks cSt (by decide)⟩

/- ------------------------------------------------------------------ -/
/- C4: decode length checking                                          -/
/- ------------------------------------------------------------------ -/

/-- `set_actor_state` succeeds exactly on 13-value segments. -/
theorem set_actor_state_ok_iff (a : Actor) (v : List Rat) :
    exceptIsOk (set_actor_state a v) = true ↔ v.length = 13 := by
  unfold set_actor_state
  split <;> simp_all [exceptIsOk]

/-- `set_articulation_state` succeeds exactly on 13 + 2 * dof-value
segments. -/
theorem set_articulation_state_ok_iff (a : Articulation) (v : List Rat) :
    exceptIsOk (set_articulation_state a v) = true ↔
      v.length = 13 + 2 * a.dof := by
  unfold set_articulation_state
  split <;> simp_all [exceptIsOk]

/-- The actor pass of `set_sim_state` succeeds exactly when the vector
holds at least 13 values per remaining actor. -/
theorem setActorsFrom_ok_iff (l : List Actor) (v : List Rat) :
    exceptIsOk (setActorsFrom l v) = true ↔ 13 * l.length ≤ v.length := by
  induction l generalizing v with
  | nil => simp [setActorsFrom, exceptIsOk]
  | cons a tl ih =>
    cases hsa : set_actor_state a (v.take 13) with
    | error e =>
      have hnot : ¬ (v.take 13).length = 13 := by
        intro hc
        have hok := (set_actor_state_ok_iff a (v.take 13)).mpr hc
        rw [hsa] at hok
        simp [exceptIsOk] at hok
      have hv : v.length < 13 := by
        simp [List.length_take] at hnot
        omega
      simp [setActorsFrom, hsa, exceptIsOk]
      omega
    | ok a' =>
      have h13 : 13 ≤ v.length := by
        have hok := (set_actor_state_ok_iff a (v.take 13)).mp (by rw [hsa]; rfl)
        simp [List.length_take] at hok
        omega
      have hrec := ih (v.drop 13)
      cases hr : setActorsFrom tl (v.drop 13) with
      | error e =>
        rw [hr] at hrec
        simp [exceptIsOk, List.length_drop] at hrec
        simp [setActorsFrom, hsa, hr, exceptIsOk]
        omega
      | ok r =>
        rw [hr] at hrec
        simp [exceptIsOk, List.length_drop] at hrec
        simp [setActorsFrom, hsa, hr, exceptIsOk]
        omega

/-- On success, the actor pass consumes exactly 13 values per actor. -/
theorem setActorsFrom_rest (l : List Actor) (v : List Rat)
    (out : List Actor × List Rat) :
    setActorsFrom l v = Except.ok out → out.2 = v.drop (13 * l.length) := by
  induction l generalizing v out with
  | nil =>
    intro hv
    simp [setActorsFrom] at hv
    simp [← hv]
  | cons a tl ih =>
    intro hv
    rw [setActorsFrom] at hv
    cases hsa : set_actor_state a (v.take 13) with
    | error e => rw [hsa] at hv; cases hv
    | ok a' =>
      rw [hsa] at hv
      cases hr : setActorsFrom tl (v.drop 13) with
      | error e => rw [hr] at hv; cases hv
      | ok r =>
        rw [hr] at hv
        have h2 := ih (v.drop 13) r hr
        have : out = (a' :: r.1, r.2) := by
          cases hv
          rfl
        rw [this, h2, List.drop_drop]
        congr 1
        simp [List.length_cons]
        ring

/-- The articulation pass of `set_sim_state` succeeds exactly when the
vector holds at least 13 + 2 * dof values per remaining articulation. -/
theorem setArtsFrom_ok_iff (l : List Articulation) (v : List Rat) :
    exceptIsOk (setArtsFrom l v) = true ↔
      (l.map (fun a => 13 + 2 * a.dof)).sum ≤ v.length := by
  induction l generalizing v with
  | nil => simp [setArtsFrom, exceptIsOk]
  | cons a tl ih =>
    cases hsa : set_articulation_state a (v.take (13 + 2 * a.dof)) with
    | error e =>
      have hnot : ¬ (v.take (13 + 2 * a.dof)).length = 13 + 2 * a.dof := by
        intro hc
        have hok := (set_articulation_state_ok_iff a _).mpr hc
        rw [hsa] at hok
        simp [exceptIsOk] at hok
      have hv : v.length < 13 + 2 * a.dof := by
        simp [List.length_take] at hnot
        omega
      simp [setArtsFrom, hsa, exceptIsOk]
      omega
    | ok a' =>
      have hn : 13 + 2 * a.dof ≤ v.length := by
        have hok := (set_articulation_state_ok_iff a _).mp (by rw [hsa]; rfl)
        simp [List.length_take] at hok
        omega
      have hrec := ih (v.drop (13 + 2 * a.dof))
      cases hr : setArtsFrom tl (v.drop (13 + 2 * a.dof)) with
      | error e =>
        rw [hr] at hrec
        simp [exceptIsOk, List.length_drop] at hrec
        simp [setArtsFrom, hsa, hr, exceptIsOk]
        omega
      | ok r =>
        rw [hr] at hrec
        simp [exceptIsOk, List.length_drop] at hrec
        simp [setArtsFrom, hsa, hr, exceptIsOk]
        omega

/-- On success, the articulation pass consumes exactly 13 + 2 * dof
values per articulation. -/
theorem setArtsFrom_rest (l : List Articulation) (v : List Rat)
    (out : List Articulation × List Rat) :
    setArtsFrom l v = Except.ok out →
      out.2 = v.drop ((l.map (fun a => 13 + 2 * a.dof)).sum) := by
  induction l generalizing v out with
  | nil =>
    intro hv
    simp [setArtsFrom] at hv
    simp [← hv]
  | cons a tl ih =>
    intro hv
    rw [setArtsFrom] at hv
    cases hsa : set_articulation_state a (v.take (13 + 2 * a.dof)) with
    | error e => rw [hsa] at hv; cases hv
    | ok a' =>
      rw [hsa] at hv
      cases hr : setArtsFrom tl (v.drop (13 + 2 * a.dof)) with
      | error e => rw [hr] at hv; cases hv
      | ok r =>
        rw [hr] at hv
        have h2 := ih (v.drop (13 + 2 * a.dof)) r hr
        have : out = (a' :: r.1, r.2) := by
          cases hv
          rfl
        rw [this, h2, List.drop_drop]
        simp [Nat.add_comm]

/-- C4 counterexample: on a snapshot whose layout is 13 values, a vector
of length 14 is accepted without any error — `set_sim_state` does not
raise on vectors longer than the layout, it silently ignores the tail. -/
theorem set_sim_state_overlong_accepted :
    simStateLen cSt4 = 13 ∧
    (List.replicate 14 (0 : Rat)).length ≠ simStateLen cSt4 ∧
    exceptIsOk (set_sim_state cSt4 (List.replicate 14 0)) = true := by decide

/-- C4 (amended): `set_sim_state` raises a shape-mismatch error exactly
when the vector is shorter than the layout implied by the cached
snapshot; it never misaligns the consumed segments, consuming exactly
`simStateLen` values and silently ignoring any excess trailing values. -/
theorem set_sim_state_length_law (st : EnvState) (v : List Rat) :
    (exceptIsOk (set_sim_state st v) = true ↔ simStateLen st ≤ v.length) ∧
    (∀ out, setBodiesFrom st.actorsSnap st.artsSnap v = Except.ok out →
      out.2 = v.drop (simStateLen st)) := by
  constructor
  · cases hsa : setActorsFrom st.actorsSnap v with
    | error e =>
      have hiff := setActorsFrom_ok_iff st.actorsSnap v
      rw [hsa] at hiff
      simp [exceptIsOk] at hiff
      simp [set_sim_state, setBodiesFrom, hsa, exceptIsOk, simStateLen]
      omega
    | ok ra =>
      have hiff := setActorsFrom_ok_iff st.actorsSnap v
      rw [hsa] at hiff
      simp [exceptIsOk] at hiff
      have hra2 := setActorsFrom_rest st.actorsSnap v ra hsa
      cases hsb : setArtsFrom st.artsSnap ra.2 with
      | error e =>
        have hiffb := setArtsFrom_ok_iff st.artsSnap ra.2
        rw [hsb] at hiffb
        simp [exceptIsOk] at hiffb
        rw [hra2, List.length_drop] at hiffb
        simp [set_sim_state, setBodiesFrom, hsa, hsb, exceptIsOk, simStateLen]
        omega
      | ok rb =>
        have hiffb := setArtsFrom_ok_iff st.artsSnap ra.2
        rw [hsb] at hiffb
        simp [exceptIsOk] at hiffb
        rw [hra2, List.length_drop] at hiffb
        simp [set_sim_state, setBodiesFrom, hsa, hsb, exceptIsOk, simStateLen]
        omega
  · intro out hout
    cases hsa : setActorsFrom st.actorsSnap v with
    | error e => simp [setBodiesFrom, hsa] at hout
    | ok ra =>
      cases hsb : setArtsFrom st.artsSnap ra.2 with
      | error e => simp [setBodiesFrom, hsa, hsb] at hout
      | ok rb =>
        simp [setBodiesFrom, hsa, hsb] at hout
        have h1 := setActorsFrom_rest st.actorsSnap v ra hsa
        have h2 := setArtsFrom_rest st.artsSnap ra.2 rb hsb
        subst hout
        show rb.2 = v.drop (simStateLen st)
        rw [h2, h1, List.drop_drop, simStateLen]

/-- Witness for C4 (amended): a vector of exactly the layout length is
accepted. -/
theorem set_sim_state_length_law_witness :
    exceptIsOk (set_sim_state cSt4 (List.replicate 13 0)) = true :=
  (set_sim_state_length_law cSt4 (List.replicate 13 0)).1.mpr (by decide)

/- ------------------------------------------------------------------ -/
/- C6: camera mount resolution                                         -/
/- ------------------------------------------------------------------ -/

/-- A scene with no actors and no articulations. -/
def emptyScene : Scene := ⟨[], []⟩

/-- A camera configuration mounted on the free actor name `ghost`. -/
def cfgGhost : CameraConfig :=
  mkCameraConfig "cam" [0, 0, 0] [1, 0, 0, 0] 64 64 1 1 10
    none (some "ghost") ["Color", "Position"]

/-- A camera configuration mounted on link `ghost` of articulation
`base`. -/
def cfgArtGhost : CameraConfig :=
  mkCameraConfig "cam" [0, 0, 0] [1, 0, 0, 0] 64 64 1 1 10
    (some "base") (some "ghost") ["Color"]

/-- C6 counterexample: a mount given only by a free actor name that does
not resolve raises no error — the camera is silently created as a
world-fixed camera (mount `None`), contradicting the claim that every
mount-lookup failure is fatal. -/
theorem free_actor_lookup_silently_world_fixed :
    mkCamera cfgGhost emptyScene "vulkan" =
      Except.ok ⟨none, ["Color", "Position"]⟩ := by rfl

/-- C6 (amended): a mount named by articulation plus link fails fatally
when either the articulation or the link cannot be resolved, but a mount
named only by a free actor name that cannot be resolved does not raise —
the lookup yields `None` and the camera is silently created world-fixed.
-/
theorem mount_lookup_trichotomy (scene : Scene) (cfg : CameraConfig)
    (rt : String) :
    (∀ au, strAttr cfg "articulation_uuid" = none →
      strAttr cfg "actor_uuid" = some au →
      get_entity_by_name scene.actors Actor.name au = none →
      mkCamera cfg scene rt = Except.ok ⟨none,
        if rt = "kuafu" then
          (strsAttr cfg "texture_names").filter (fun x => x ∈ ["Color"])
        else strsAttr cfg "texture_names"⟩) ∧
    (∀ artu au, strAttr cfg "articulation_uuid" = some artu →
      strAttr cfg "actor_uuid" = some au →
      get_entity_by_name scene.articulations Articulation.name artu = none →
      exceptIsOk (mkCamera cfg scene rt) = false) ∧
    (∀ artu art au, strAttr cfg "articulation_uuid" = some artu →
      strAttr cfg "actor_uuid" = some au →
      get_entity_by_name scene.articulations Articulation.name artu = some art →
      get_entity_by_name art.links Actor.name au = none →
      exceptIsOk (mkCamera cfg scene rt) = false) := by
  refine ⟨?_, ?_, ?_⟩
  · intro au h1 h2 h3
    simp [mkCamera, get_mount_actor, h1, h2, h3]
  · intro artu au h1 h2 h3
    simp [mkCamera, get_mount_actor, h1, h2, h3, exceptIsOk]
  · intro artu art au h1 h2 h3 h4
    simp [mkCamera, get_mount_actor, h1, h2, h3, h4, exceptIsOk]

/-- Witness for C6 (amended): an unresolvable articulation name fails
fatally. -/
theorem mount_lookup_trichotomy_witness :
    exceptIsOk (mkCamera cfgArtGhost emptyScene "vulkan") = false :=
  (mount_lookup_trichotomy emptyScene cfgArtGhost "vulkan").2.1 "base" "ghost"
    rfl rfl rfl


/- ------------------------------------------------------------------ -/
/- Attribute-dictionary toolkit for C7 and C8                          -/
/- ------------------------------------------------------------------ -/

/-- Unfolding lemma for association-list lookup. -/
theorem lookup_cons {β : Type} (n a : String) (b : β) (t : List (String × β)) :
    List.lookup n ((a, b) :: t) = if n = a then some b else List.lookup n t := by
  by_cases h : n = a
  · subst h
    simp [List.lookup]
  · have hb : (n == a) = false := beq_eq_false_iff_ne.mpr h
    simp [List.lookup, hb, h]

/-- Looking a key up after mapping over the values maps the result. -/
theorem lookup_map_snd {β γ : Type} (l : List (String × β)) (f : β → γ)
    (n : String) :
    (l.map (fun p => (p.1, f p.2))).lookup n = (l.lookup n).map f := by
  induction l with
  | nil => rfl
  | cons p t ih =>
    obtain ⟨a, b⟩ := p
    simp only [List.map, lookup_cons]
    by_cases h : n = a <;> simp [h, ih]

/-- Looking a key up after conditionally replacing the value stored under
`c` sees the replacement exactly at `c`. -/
theorem lookup_cond_replace {β : Type} (l : List (String × β)) (c : String)
    (x : β) (n : String) :
    (l.map (fun p => if p.1 = c then (p.1, x) else p)).lookup n =
      (l.lookup n).map (fun old => if n = c then x else old) := by
  induction l with
  | nil => rfl
  | cons p t ih =>
    obtain ⟨a, b⟩ := p
    by_cases hac : a = c
    · simp only [List.map, if_pos hac]
      rw [lookup_cons, lookup_cons]
      by_cases hna : n = a
      · rw [if_pos hna, if_pos hna, Option.map_some']
        rw [if_pos (hna.trans hac)]
      · rw [if_neg hna, if_neg hna, ih]
    · simp only [List.map, if_neg hac]
      rw [lookup_cons, lookup_cons]
      by_cases hna : n = a
      · rw [if_pos hna, if_pos hna, Option.map_some']
        rw [if_neg (fun hnc => hac (hna.symm.trans hnc))]
      · rw [if_neg hna, if_neg hna, ih]

/-- Lookup success is determined by the key list alone. -/
theorem lookup_isSome_congr {β γ : Type} (l1 : List (String × β))
    (l2 : List (String × γ)) (h : l1.map Prod.fst = l2.map Prod.fst)
    (k : String) :
    (l1.lookup k).isSome = (l2.lookup k).isSome := by
  induction l1 generalizing l2 with
  | nil =>
    have : l2 = [] := by
      cases l2 with
      | nil => rfl
      | cons q t2 => simp at h
    subst this
    rfl
  | cons p t ih =>
    obtain ⟨a, b⟩ := p
    cases l2 with
    | nil => simp at h
    | cons q t2 =>
      obtain ⟨a2, b2⟩ := q
      simp only [List.map, List.cons.injEq] at h
      obtain ⟨ha, ht⟩ := h
      subst ha
      rw [lookup_cons, lookup_cons]
      by_cases hka : k = a
      · rw [if_pos hka, if_pos hka]
        rfl
      · rw [if_neg hka, if_neg hka]
        exact ih t2 ht

/-- Appending cannot shadow keys absent from the first list. -/
theorem lookup_append_of_none {β : Type} (l1 l2 : List (String × β))
    (k : String) (h : l1.lookup k = none) :
    (l1 ++ l2).lookup k = l2.lookup k := by
  induction l1 with
  | nil => rfl
  | cons p t ih =>
    obtain ⟨a, b⟩ := p
    rw [lookup_cons] at h
    by_cases hka : k = a
    · rw [if_pos hka] at h
      cases h
    · rw [if_neg hka] at h
      show List.lookup k ((a, b) :: (t ++ l2)) = _
      rw [lookup_cons, if_neg hka]
      exact ih h

/-- Setting an existing attribute does not change the attribute names. -/
theorem keys_setattr_of_has (cfg : CameraConfig) (k : String) (v : CfgEntry)
    (h : hasattrCfg cfg k = true) :
    attrKeys (setattrCfg cfg k v) = attrKeys cfg := by
  unfold setattrCfg
  rw [if_pos h]
  unfold attrKeys
  rw [List.map_map]
  apply List.map_congr_left
  intro kv _
  by_cases h2 : kv.1 = k <;> simp [h2]

/-- Equal attribute-name lists give equal `hasattr` verdicts. -/
theorem hasattr_of_keys_eq (cfg cfg' : CameraConfig) (k : String)
    (h : attrKeys cfg = attrKeys cfg') :
    hasattrCfg cfg k = hasattrCfg cfg' k :=
  lookup_isSome_congr cfg.attrs cfg'.attrs h k

/-- After `setattr cfg k v` the attribute `k` exists. -/
theorem hasattr_setattr_self (cfg : CameraConfig) (k : String) (v : CfgEntry) :
    hasattrCfg (setattrCfg cfg k v) k = true := by
  by_cases h : hasattrCfg cfg k = true
  · rw [hasattr_of_keys_eq _ cfg k (keys_setattr_of_has cfg k v h)]
    exact h
  · unfold setattrCfg
    rw [if_neg h]
    unfold hasattrCfg at h ⊢
    have hnone : cfg.attrs.lookup k = none := by
      cases hl : cfg.attrs.lookup k with
      | none => rfl
      | some w => rw [hl] at h; simp at h
    show ((cfg.attrs ++ [(k, v)]).lookup k).isSome = true
    rw [lookup_append_of_none _ _ _ hnone, lookup_cons, if_pos rfl]
    rfl

/-- After `setattr cfg k v`, reading `k` yields `v`. -/
theorem getattr_setattr_self (cfg : CameraConfig) (k : String) (v : CfgEntry) :
    getattrCfg (setattrCfg cfg k v) k = some v := by
  unfold setattrCfg getattrCfg
  by_cases h : hasattrCfg cfg k = true
  · rw [if_pos h]
    show (cfg.attrs.map (fun kv => if kv.1 = k then (kv.1, v) else kv)).lookup k = some v
    rw [lookup_cond_replace]
    unfold hasattrCfg at h
    obtain ⟨w, hw⟩ := Option.isSome_iff_exists.mp h
    rw [hw, Option.map_some', if_pos rfl]
  · rw [if_neg h]
    unfold hasattrCfg at h
    have hnone : cfg.attrs.lookup k = none := by
      cases hl : cfg.attrs.lookup k with
      | none => rfl
      | some w => rw [hl] at h; simp at h
    show (cfg.attrs ++ [(k, v)]).lookup k = some v
    rw [lookup_append_of_none _ _ _ hnone, lookup_cons, if_pos rfl]

/-- When every camera has the attribute, the global inner loop sets it on
every camera and reports no error. -/
theorem setattrAll_all_ok (cfgs : List (String × CameraConfig)) (k : String)
    (v : CfgEntry) (h : ∀ p ∈ cfgs, hasattrCfg p.2 k = true) :
    setattrAll cfgs k v =
      (cfgs.map (fun p => (p.1, setattrCfg p.2 k v)), none) := by
  induction cfgs with
  | nil => rfl
  | cons p t ih =>
    obtain ⟨n, cfg⟩ := p
    have hh : hasattrCfg cfg k = true := h (n, cfg) (by simp)
    have ht := ih (fun q hq => h q (List.mem_cons_of_mem _ hq))
    simp [setattrAll, hh, ht]

/-- The global inner loop reports no error exactly when every camera has
the attribute. -/
theorem setattrAll_none_iff (cfgs : List (String × CameraConfig)) (k : String)
    (v : CfgEntry) :
    (setattrAll cfgs k v).2 = none ↔ ∀ p ∈ cfgs, hasattrCfg p.2 k = true := by
  induction cfgs with
  | nil => simp [setattrAll]
  | cons p t ih =>
    obtain ⟨n, cfg⟩ := p
    by_cases hh : hasattrCfg cfg k = true
    · simp [setattrAll, hh, ih]
    · simp [setattrAll, hh]

/-- The name-and-attribute-names projection of a camera configuration
set: merging never changes it unless it aborts. -/
def keyProj (cfgs : List (String × CameraConfig)) : List (String × List String) :=
  cfgs.map (fun p => (p.1, attrKeys p.2))

/-- Lookup through the projection. -/
theorem keyProj_lookup (cfgs : List (String × CameraConfig)) (n : String) :
    (keyProj cfgs).lookup n = (cfgs.lookup n).map attrKeys :=
  lookup_map_snd cfgs attrKeys n

/-- The projection keeps the camera names. -/
theorem keyProj_names (cfgs : List (String × CameraConfig)) :
    (keyProj cfgs).map Prod.fst = cfgs.map Prod.fst := by
  unfold keyProj
  rw [List.map_map]
  rfl

/-- An error-free global inner loop preserves the projection. -/
theorem setattrAll_keyProj (cfgs : List (String × CameraConfig)) (k : String)
    (v : CfgEntry) (h : ∀ p ∈ cfgs, hasattrCfg p.2 k = true) :
    keyProj ((setattrAll cfgs k v).1) = keyProj cfgs := by
  rw [setattrAll_all_ok cfgs k v h]
  unfold keyProj
  rw [List.map_map]
  apply List.map_congr_left
  intro p hp
  show (p.1, attrKeys (setattrCfg p.2 k v)) = (p.1, attrKeys p.2)
  rw [keys_setattr_of_has p.2 k v (h p hp)]

/-- An error-free global pass preserves the projection. -/
theorem applyGlobal_ok_keyProj (d : List (String × CfgEntry)) :
    ∀ (cfgs : List (String × CameraConfig)),
      (applyGlobal cfgs d).2 = none →
      keyProj ((applyGlobal cfgs d).1) = keyProj cfgs := by
  induction d with
  | nil =>
    intro cfgs _
    rfl
  | cons kv rest ih =>
    obtain ⟨k, v⟩ := kv
    intro cfgs h
    cases hl : cfgs.lookup k with
    | some w =>
      rw [applyGlobal, hl] at h ⊢
      exact ih cfgs h
    | none =>
      rcases hsa : setattrAll cfgs k v with ⟨cfgs', e⟩
      cases e with
      | some msg =>
        rw [applyGlobal, hl, hsa] at h
        cases h
      | none =>
        have hall : ∀ p ∈ cfgs, hasattrCfg p.2 k = true := by
          rw [← setattrAll_none_iff cfgs k v, hsa]
        have hkp : keyProj cfgs' = keyProj cfgs := by
          have := setattrAll_keyProj cfgs k v hall
          rw [hsa] at this
          exact this
        rw [applyGlobal, hl, hsa] at h ⊢
        rw [ih cfgs' h, hkp]

/-- A key is among the keys of an association list exactly when looking
it up succeeds. -/
theorem mem_keys_iff_lookup_isSome {β : Type} (l : List (String × β))
    (k : String) :
    k ∈ l.map Prod.fst ↔ (l.lookup k).isSome = true := by
  induction l with
  | nil => simp
  | cons p t ih =>
    obtain ⟨a, b⟩ := p
    rw [lookup_cons]
    by_cases h : k = a <;> simp [h, ih]

/-- If the dictionary holds a key that names no camera yet is missing
from some camera's attributes, the global pass aborts with an error. -/
theorem applyGlobal_err_of_bad (d : List (String × CfgEntry)) :
    ∀ (cfgs : List (String × CameraConfig)) (k : String),
      (∃ v, (k, v) ∈ d) →
      (keyProj cfgs).lookup k = none →
      (∃ q ∈ keyProj cfgs, k ∉ q.2) →
      ((applyGlobal cfgs d).2).isSome = true := by
  induction d with
  | nil =>
    intro cfgs k hmem _ _
    obtain ⟨v, hv⟩ := hmem
    cases hv
  | cons kv rest ih =>
    obtain ⟨k', v'⟩ := kv
    intro cfgs k hmem hnone hlack
    obtain ⟨v, hv⟩ := hmem
    cases hl : cfgs.lookup k' with
    | some w =>
      rw [applyGlobal, hl]
      rcases List.mem_cons.mp hv with hhd | htl
      · exfalso
        injection hhd with hk hv'
        subst hk
        rw [keyProj_lookup, hl] at hnone
        cases hnone
      · exact ih cfgs k ⟨v, htl⟩ hnone hlack
    | none =>
      rcases hsa : setattrAll cfgs k' v' with ⟨cfgs', e⟩
      cases e with
      | some msg =>
        rw [applyGlobal, hl, hsa]
        rfl
      | none =>
        have hall : ∀ p ∈ cfgs, hasattrCfg p.2 k' = true := by
          rw [← setattrAll_none_iff cfgs k' v', hsa]
        have hkp : keyProj cfgs' = keyProj cfgs := by
          have := setattrAll_keyProj cfgs k' v' hall
          rw [hsa] at this
          exact this
        rw [applyGlobal, hl, hsa]
        rcases List.mem_cons.mp hv with hhd | htl
        · exfalso
          injection hhd with hk hv'
          subst hk
          obtain ⟨q, hq, hqf⟩ := hlack
          obtain ⟨p, hp, hpq⟩ := List.mem_map.mp hq
          have hsome := hall p hp
          unfold hasattrCfg at hsome
          rw [← hpq] at hqf
          exact hqf ((mem_keys_iff_lookup_isSome p.2.attrs k).mpr hsome)
        · exact ih cfgs' k ⟨v, htl⟩ (by rw [hkp]; exact hnone)
            (by rw [hkp]; exact hlack)

/-- Applying a per-camera table whose keys are all valid does not change
the attribute names. -/
theorem foldl_setattr_keys (kvs : List (String × PyVal)) :
    ∀ (cfg : CameraConfig),
      (∀ e ∈ kvs, hasattrCfg cfg e.1 = true) →
      attrKeys (kvs.foldl
        (fun c kv => setattrCfg c kv.1 (CfgEntry.scalar kv.2)) cfg) =
        attrKeys cfg := by
  induction kvs with
  | nil =>
    intro cfg _
    rfl
  | cons e t ih =>
    intro cfg h
    have he : hasattrCfg cfg e.1 = true := h e (by simp)
    have hkeys := keys_setattr_of_has cfg e.1 (CfgEntry.scalar e.2) he
    show attrKeys (t.foldl _ (setattrCfg cfg e.1 (CfgEntry.scalar e.2))) = attrKeys cfg
    rw [ih (setattrCfg cfg e.1 (CfgEntry.scalar e.2)) (fun e' he' => by
      rw [hasattr_of_keys_eq _ cfg e'.1 hkeys]
      exact h e' (List.mem_cons_of_mem _ he'))]
    exact hkeys

/-- Conditionally replacing one camera's object keeps the name list. -/
theorem names_cond_replace {β : Type} (l : List (String × β)) (n : String)
    (x : β) :
    (l.map (fun p => if p.1 = n then (p.1, x) else p)).map Prod.fst =
      l.map Prod.fst := by
  rw [List.map_map]
  apply List.map_congr_left
  intro p _
  by_cases h : p.1 = n <;> simp [h]

/-- Replacing one camera's object by one with the same attribute names
preserves the projection. -/
theorem replace_keyProj (cfgs : List (String × CameraConfig)) (n : String)
    (cfg' : CameraConfig)
    (h : ∀ p ∈ cfgs, p.1 = n → attrKeys p.2 = attrKeys cfg') :
    keyProj (cfgs.map (fun p => if p.1 = n then (p.1, cfg') else p)) =
      keyProj cfgs := by
  unfold keyProj
  rw [List.map_map]
  apply List.map_congr_left
  intro p hp
  by_cases hpn : p.1 = n
  · simp [hpn, h p hp hpn]
  · simp [hpn]

/-- With distinct keys, lookup determines every entry with that key. -/
theorem lookup_nodup_unique {β : Type} (l : List (String × β)) (n : String)
    (b : β) (hnd : (l.map Prod.fst).Nodup) (hl : l.lookup n = some b) :
    ∀ p ∈ l, p.1 = n → p.2 = b := by
  induction l with
  | nil =>
    intro p hp
    cases hp
  | cons q t ih =>
    obtain ⟨a, c⟩ := q
    simp only [List.map, List.nodup_cons] at hnd
    obtain ⟨hna, hndt⟩ := hnd
    rw [lookup_cons] at hl
    intro p hp hpn
    rcases List.mem_cons.mp hp with rfl | hpt
    · rw [if_pos hpn.symm] at hl
      cases hl
      rfl
    · by_cases hna' : n = a
      · exfalso
        apply hna
        rw [← hna', ← hpn]
        exact List.mem_map_of_mem Prod.fst hpt
      · rw [if_neg hna'] at hl
        exact ih hndt hl p hpt hpn

/-- If the dictionary holds a per-camera table naming an existing camera
and containing an attribute that camera lacks, the per-camera pass aborts
with an error. -/
theorem applyPerCamera_err_of_bad (d : List (String × CfgEntry)) :
    ∀ (cfgs : List (String × CameraConfig)) (n : String)
      (tbl : List (String × PyVal)) (ks : List String),
      (cfgs.map Prod.fst).Nodup →
      (n, CfgEntry.table tbl) ∈ d →
      (keyProj cfgs).lookup n = some ks →
      (∃ e ∈ tbl, e.1 ∉ ks) →
      ((applyPerCamera cfgs d).2).isSome = true := by
  induction d with
  | nil =>
    intro cfgs n tbl ks _ hmem _ _
    cases hmem
  | cons kv rest ih =>
    obtain ⟨n', v'⟩ := kv
    intro cfgs n tbl ks hnd hmem hks hlack
    cases hl : cfgs.lookup n' with
    | none =>
      rw [applyPerCamera, hl]
      rcases List.mem_cons.mp hmem with hhd | htl
      · exfalso
        injection hhd with h1 h2
        subst h1
        rw [keyProj_lookup, hl] at hks
        cases hks
      · exact ih cfgs n tbl ks hnd htl hks hlack
    | some cfg =>
      cases v' with
      | scalar w =>
        rw [applyPerCamera, hl]
        rfl
      | table kvs =>
        cases hall : kvs.all (fun kv => hasattrCfg cfg kv.1) with
        | false => simp [applyPerCamera, hl, hall]
        | true =>
          have hkeys' : attrKeys (kvs.foldl
              (fun c kv => setattrCfg c kv.1 (CfgEntry.scalar kv.2)) cfg) =
              attrKeys cfg :=
            foldl_setattr_keys kvs cfg (fun e he => List.all_eq_true.mp hall e he)
          have hcond : ∀ p ∈ cfgs, p.1 = n' →
              attrKeys p.2 = attrKeys (kvs.foldl
                (fun c kv => setattrCfg c kv.1 (CfgEntry.scalar kv.2)) cfg) := by
            intro p hp hpn
            rw [lookup_nodup_unique cfgs n' cfg hnd hl p hp hpn]
            exact hkeys'.symm
          rcases List.mem_cons.mp hmem with hhd | htl
          · exfalso
            injection hhd with h1 h2
            subst h1
            injection h2 with h3
            subst h3
            rw [keyProj_lookup, hl] at hks
            injection hks with h4
            obtain ⟨e, he, hef⟩ := hlack
            have hha := List.all_eq_true.mp hall e he
            unfold hasattrCfg at hha
            apply hef
            rw [← h4]
            exact (mem_keys_iff_lookup_isSome cfg.attrs e.1).mpr hha
          · simp only [applyPerCamera, hl, hall, if_true]
            apply ih _ n tbl ks
            · rw [names_cond_replace]
              exact hnd
            · exact htl
            · rw [replace_keyProj cfgs n' _ hcond]
              exact hks
            · exact hlack

/- ------------------------------------------------------------------ -/
/- C7: override precedence                                             -/
/- ------------------------------------------------------------------ -/

/-- C7: merging a dictionary holding one global key `k` (not a camera
uuid) and one per-camera block for camera `c` overriding the same key
succeeds; afterwards every camera except `c` carries the global value
under `k` while `c` carries its per-camera value — per-camera overrides
win. -/
theorem camera_cfg_override_precedence
    (cfgs : List (String × CameraConfig)) (k c : String) (gv pv : PyVal)
    (cfg0 : CameraConfig)
    (hkglob : cfgs.lookup k = none)
    (hc : cfgs.lookup c = some cfg0)
    (hattr : ∀ p ∈ cfgs, hasattrCfg p.2 k = true) :
    ((update_camera_cfgs_from_dict cfgs
        [(k, CfgEntry.scalar gv), (c, CfgEntry.table [(k, pv)])]).2 = none) ∧
    (∀ n cfgn, cfgs.lookup n = some cfgn →
      ∃ cfgn', (update_camera_cfgs_from_dict cfgs
          [(k, CfgEntry.scalar gv), (c, CfgEntry.table [(k, pv)])]).1.lookup n =
            some cfgn' ∧
        getattrCfg cfgn' k =
          some (CfgEntry.scalar (if n = c then pv else gv))) := by
  have hsa := setattrAll_all_ok cfgs k (CfgEntry.scalar gv) hattr
  have hm1k : (cfgs.map (fun p => (p.1, setattrCfg p.2 k (CfgEntry.scalar gv)))).lookup k
      = none := by
    have hh := lookup_map_snd cfgs
      (fun cfg => setattrCfg cfg k (CfgEntry.scalar gv)) k
    rw [hkglob] at hh
    simpa using hh
  have hm1c : (cfgs.map (fun p => (p.1, setattrCfg p.2 k (CfgEntry.scalar gv)))).lookup c
      = some (setattrCfg cfg0 k (CfgEntry.scalar gv)) := by
    have hh := lookup_map_snd cfgs
      (fun cfg => setattrCfg cfg k (CfgEntry.scalar gv)) c
    rw [hc] at hh
    simpa using hh
  have hag : applyGlobal cfgs [(k, CfgEntry.scalar gv), (c, CfgEntry.table [(k, pv)])] =
      (cfgs.map (fun p => (p.1, setattrCfg p.2 k (CfgEntry.scalar gv))), none) := by
    simp only [applyGlobal, hkglob, hsa, hm1c]
  have hhas1 : hasattrCfg (setattrCfg cfg0 k (CfgEntry.scalar gv)) k = true :=
    hasattr_setattr_self cfg0 k (CfgEntry.scalar gv)
  have hper : applyPerCamera
      (cfgs.map (fun p => (p.1, setattrCfg p.2 k (CfgEntry.scalar gv))))
      [(k, CfgEntry.scalar gv), (c, CfgEntry.table [(k, pv)])] =
      ((cfgs.map (fun p => (p.1, setattrCfg p.2 k (CfgEntry.scalar gv)))).map
        (fun p => if p.1 = c then
          (p.1, setattrCfg (setattrCfg cfg0 k (CfgEntry.scalar gv)) k
            (CfgEntry.scalar pv)) else p), none) := by
    simp only [applyPerCamera, hm1k, hm1c, List.all_cons, List.all_nil, hhas1,
      Bool.and_true, if_true, List.foldl]
  have hupd : update_camera_cfgs_from_dict cfgs
      [(k, CfgEntry.scalar gv), (c, CfgEntry.table [(k, pv)])] =
      ((cfgs.map (fun p => (p.1, setattrCfg p.2 k (CfgEntry.scalar gv)))).map
        (fun p => if p.1 = c then
          (p.1, setattrCfg (setattrCfg cfg0 k (CfgEntry.scalar gv)) k
            (CfgEntry.scalar pv)) else p), none) := by
    rw [update_camera_cfgs_from_dict, hag]
    exact hper
  constructor
  · rw [hupd]
  · intro n cfgn hn
    rw [hupd]
    refine ⟨if n = c then
        setattrCfg (setattrCfg cfg0 k (CfgEntry.scalar gv)) k (CfgEntry.scalar pv)
      else setattrCfg cfgn k (CfgEntry.scalar gv), ?_, ?_⟩
    · rw [lookup_cond_replace]
      have hh := lookup_map_snd cfgs
        (fun cfg => setattrCfg cfg k (CfgEntry.scalar gv)) n
      rw [hn] at hh
      rw [hh]
      by_cases hnc : n = c <;> simp [hnc]
    · by_cases hnc : n = c
      · rw [if_pos hnc, if_pos hnc]
        exact getattr_setattr_self _ k (CfgEntry.scalar pv)
      · rw [if_neg hnc, if_neg hnc]
        exact getattr_setattr_self _ k (CfgEntry.scalar gv)

/-- A first concrete camera configuration. -/
def cCfg0 : CameraConfig :=
  mkCameraConfig "cam0" [0, 0, 0] [1, 0, 0, 0] 128 128 1 1 10
    none none ["Color", "Position"]

/-- A second concrete camera configuration. -/
def cCfg1 : CameraConfig :=
  mkCameraConfig "cam1" [0, 0, 0] [1, 0, 0, 0] 128 128 1 1 10
    none none ["Color"]

/-- A concrete camera configuration set with two cameras. -/
def cCfgsTwo : List (String × CameraConfig) := [("cam0", cCfg0), ("cam1", cCfg1)]

/-- Witness for C7 on the spec's instance shape: one global `near`
override plus a per-camera `near` override for `cam1` — `cam1` ends up
with the per-camera value and every other camera with the global one
(integer-valued rationals stand in for the spec's 0.05 and 0.2, which
play no role in the precedence logic). -/
theorem camera_cfg_override_precedence_witness :
    ∃ cfgn', (update_camera_cfgs_from_dict cCfgsTwo
        [("near", CfgEntry.scalar (PyVal.num 5)),
         ("cam1", CfgEntry.table [("near", PyVal.num 2)])]).1.lookup "cam1" =
          some cfgn' ∧
      getattrCfg cfgn' "near" =
        some (CfgEntry.scalar (if "cam1" = "cam1" then PyVal.num 2
          else PyVal.num 5)) :=
  (camera_cfg_override_precedence cCfgsTwo "near" "cam1" (PyVal.num 5)
      (PyVal.num 2) cCfg1 (by decide) (by decide) (by decide)).2
    "cam1" cCfg1 (by decide)

/- ------------------------------------------------------------------ -/
/- C8: unknown attribute names                                         -/
/- ------------------------------------------------------------------ -/

/-- The override dictionary whose first key is valid and whose second key
is not a `CameraConfig` attribute. -/
def cBadDict : List (String × CfgEntry) :=
  [("near", CfgEntry.scalar (PyVal.num 3)),
   ("bogus", CfgEntry.scalar (PyVal.num 1))]

/-- A one-camera configuration set. -/
def cCfgsOne : List (String × CameraConfig) := [("cam0", cCfg0)]

/-- C8 counterexample: with a valid key processed before an unknown key,
the merge raises the assertion error but the valid key has already
mutated the camera configuration — the unknown-name check is not
performed before all mutation. -/
theorem camera_cfg_mutation_survives_error :
    ((update_camera_cfgs_from_dict cCfgsOne cBadDict).2).isSome = true ∧
    (update_camera_cfgs_from_dict cCfgsOne cBadDict).1 ≠ cCfgsOne := by decide

/-- C8 (amended): an unknown attribute name — a global key missing from
some camera, or a per-camera block key missing from that camera — makes
the merge fail with a fatal assertion error when reached, though keys
processed earlier may already have mutated camera configurations. -/
theorem camera_cfg_unknown_attr_fatal (cfgs : List (String × CameraConfig))
    (d : List (String × CfgEntry)) (hnd : (cfgs.map Prod.fst).Nodup)
    (hbad :
      (∃ kv ∈ d, cfgs.lookup kv.1 = none ∧
        ∃ p ∈ cfgs, hasattrCfg p.2 kv.1 = false) ∨
      (∃ kv ∈ d, ∃ tbl, kv.2 = CfgEntry.table tbl ∧
        ∃ cfg0, cfgs.lookup kv.1 = some cfg0 ∧
          ∃ e ∈ tbl, hasattrCfg cfg0 e.1 = false)) :
    ((update_camera_cfgs_from_dict cfgs d).2).isSome = true := by
  rcases hag : applyGlobal cfgs d with ⟨cfgs1, e1⟩
  cases e1 with
  | some msg =>
    rw [update_camera_cfgs_from_dict, hag]
    rfl
  | none =>
    have hok : (applyGlobal cfgs d).2 = none := by rw [hag]
    have hproj : keyProj cfgs1 = keyProj cfgs := by
      have hh := applyGlobal_ok_keyProj d cfgs hok
      rw [hag] at hh
      exact hh
    have hupd : update_camera_cfgs_from_dict cfgs d = applyPerCamera cfgs1 d := by
      rw [update_camera_cfgs_from_dict, hag]
    rcases hbad with ⟨⟨k, v⟩, hkv, hnone, p, hp, hfail⟩ |
      ⟨⟨n, v⟩, hnv, tbl, htbl, cfg0, hlk, e, he, hfail⟩
    · exfalso
      dsimp only at hnone hfail
      have hres := applyGlobal_err_of_bad d cfgs k ⟨v, hkv⟩
        (by rw [keyProj_lookup, hnone]; rfl)
        (by
          refine ⟨(p.1, attrKeys p.2), List.mem_map_of_mem _ hp, ?_⟩
          intro hmemk
          have hs := (mem_keys_iff_lookup_isSome p.2.attrs k).mp hmemk
          unfold hasattrCfg at hfail
          rw [hfail] at hs
          cases hs)
      rw [hag] at hres
      simp at hres
    · rw [hupd]
      dsimp only at htbl hlk
      subst htbl
      have hnames : cfgs1.map Prod.fst = cfgs.map Prod.fst := by
        have h1 := keyProj_names cfgs1
        have h2 := keyProj_names cfgs
        rw [hproj] at h1
        exact h1.symm.trans h2
      have hnd1 : (cfgs1.map Prod.fst).Nodup := by
        rw [hnames]
        exact hnd
      apply applyPerCamera_err_of_bad d cfgs1 n tbl (attrKeys cfg0) hnd1 hnv
      · rw [hproj, keyProj_lookup, hlk]
        rfl
      · refine ⟨e, he, ?_⟩
        intro hmemk
        have hs := (mem_keys_iff_lookup_isSome cfg0.attrs e.1).mp hmemk
        unfold hasattrCfg at hfail
        rw [hfail] at hs
        cases hs

/-- Witness for C8 (amended): the unknown global key `bogus` makes the
merge fail. -/
theorem camera_cfg_unknown_attr_fatal_witness :
    ((update_camera_cfgs_from_dict cCfgsOne cBadDict).2).isSome = true :=
  camera_cfg_unknown_attr_fatal cCfgsOne cBadDict (by decide) (Or.inl (by decide))

/-- Witness for C9 (amended) at the spec's instance: ids {0,1,2,5} and
agent ids {1,2}. -/
theorem robot_seg_pointwise_witness :
    List.Forall₂ (fun vin vout =>
        vout = (if vin ∈ [1, 2] then vin else 0) ∧
        (vout ≠ 0 ↔ vin ∈ [1, 2] ∧ vin ≠ 0))
      [0, 1, 2, 5] (get_robot_seg [1, 2] [0, 1, 2, 5]) :=
  (robot_seg_pointwise [1, 2] [0, 1, 2, 5]).1
